import Mathlib

/-!
Verification of the aipply repository's Profile Normalization & Schema
Migration layer, its resume-tailoring stages, and its PDF-text extraction
front end, against the repository's specification.

Modelling conventions (shallow embedding of the Python sources):
* JSON documents (Python dicts/lists loaded by `json.load`) are the inductive
  type `Json`; Python dicts are ordered association lists with unique keys,
  exactly as Python 3.7+ dicts behave.
* Python exceptions are the error side of `Except PyErr`.
* The backing profile file (`ProfileMemory.path`) is modelled by its parsed
  contents: `Option Json` (`none` = no file on disk).
* External collaborators (the LLM completion service, `json.dumps`,
  `json.loads`, `datetime.now`) are parameters of the functions that call
  them, as the spec directs for external interfaces.
-/

/-- A JSON value as produced by Python's `json.load`: Python dicts are ordered
key/value lists (insertion order, unique keys), numbers are modelled as
integers (no claim depends on float behaviour). -/
inductive Json where
  | null : Json
  | bool : Bool → Json
  | num : Int → Json
  | str : String → Json
  | arr : List Json → Json
  | obj : List (String × Json) → Json

/-- The Python exceptions the embedded code can raise. `exc` stands for any
exception raised by an external collaborator (e.g. a transport error from the
LLM client). -/
inductive PyErr where
  | fileNotFound : String → PyErr
  | keyError : String → PyErr
  | attributeError : String → PyErr
  | typeError : String → PyErr
  | exc : String → PyErr
deriving DecidableEq, Repr

/-- `Json.null` test (Python `x is None`; JSON `null` loads as `None`). -/
def isNull : Json → Bool
  | Json.null => true
  | _ => false

/-- First value bound to `key`, scanning left to right (Python dict lookup). -/
def lookupKey : List (String × Json) → String → Option Json
  | [], _ => none
  | (k, v) :: rest, key => if k = key then some v else lookupKey rest key

/-- Python `d[key] = val`: replace the value in place if the key exists
(keeping its position), otherwise append at the end — Python 3.7+ dict
insertion-order semantics. -/
def insertKey : List (String × Json) → String → Json → List (String × Json)
  | [], key, val => [(key, val)]
  | (k, v) :: rest, key, val =>
      if k = key then (k, val) :: rest else (k, v) :: insertKey rest key val

/-- Python `key in d` for a dict. -/
def hasKey (kvs : List (String × Json)) (key : String) : Bool :=
  (lookupKey kvs key).isSome

/-- `listPrefixOf n h`: `n` is a prefix of `h`. -/
def listPrefixOf : List Char → List Char → Bool
  | [], _ => true
  | _ :: _, [] => false
  | a :: as, b :: bs => a = b && listPrefixOf as bs

/-- `listInfixOf n h`: `n` occurs contiguously in `h`. -/
def listInfixOf (needle : List Char) : List Char → Bool
  | [] => needle.isEmpty
  | c :: rest => listPrefixOf needle (c :: rest) || listInfixOf needle rest

/-- Substring test (Python `needle in haystack` on strings). -/
def strContains (hay needle : String) : Bool :=
  listInfixOf needle.data hay.data

/-- Python `x.get(key, default)`: only dicts have `.get`; on any other value
Python raises `AttributeError`. -/
def pyGetD : Json → String → Json → Except PyErr Json
  | Json.obj kvs, key, dflt => Except.ok ((lookupKey kvs key).getD dflt)
  | _, _, _ => Except.error (PyErr.attributeError "get")

/-- Python `x[key]` with a string key: dict lookup (`KeyError` when absent);
`TypeError` on any non-dict value. -/
def pyIndex : Json → String → Except PyErr Json
  | Json.obj kvs, key =>
      match lookupKey kvs key with
      | some v => Except.ok v
      | none => Except.error (PyErr.keyError key)
  | _, _ => Except.error (PyErr.typeError "subscript")

/-- Python `key in x`: key membership for dicts, element membership for lists,
substring test for strings, `TypeError` otherwise. -/
def pyIn (key : String) : Json → Except PyErr Bool
  | Json.obj kvs => Except.ok (hasKey kvs key)
  | Json.arr xs => Except.ok (xs.any (fun x =>
      match x with
      | Json.str s => s = key
      | _ => false))
  | Json.str s => Except.ok (strContains s key)
  | _ => Except.error (PyErr.typeError "not iterable")

/-- Python `for elem in x`: lists yield their elements, strings their
one-character substrings, dicts their keys; other values raise `TypeError`. -/
def pyIterList : Json → Except PyErr (List Json)
  | Json.arr xs => Except.ok xs
  | Json.str s => Except.ok (s.data.map (fun c => Json.str (String.mk [c])))
  | Json.obj kvs => Except.ok (kvs.map (fun kv => Json.str kv.1))
  | _ => Except.error (PyErr.typeError "not iterable")

/-- Python `x[key] = val`: dict update; `TypeError` on non-dicts. -/
def pySetItem (x : Json) (key : String) (val : Json) : Except PyErr Json :=
  match x with
  | Json.obj kvs => Except.ok (Json.obj (insertKey kvs key val))
  | _ => Except.error (PyErr.typeError "item assignment")

/-- Python `x[:2]`: list/string slices; `TypeError` otherwise. -/
def pySlice2 : Json → Except PyErr Json
  | Json.arr xs => Except.ok (Json.arr (xs.take 2))
  | Json.str s => Except.ok (Json.str (String.mk (s.data.take 2)))
  | _ => Except.error (PyErr.typeError "unhashable slice")

/-! ## profile_memory.py — `ProfileMemory` -/

/-- `ProfileMemory._looks_french_schema` (profile_memory.py:97-98):
`any(k in data for k in ['identite', 'profil_long', 'competences'])`,
short-circuiting like Python's `any`. -/
def _looks_french_schema (data : Json) : Except PyErr Bool := do
  let b1 ← pyIn "identite" data
  if b1 then pure true else do
  let b2 ← pyIn "profil_long" data
  if b2 then pure true else
  pyIn "competences" data

/-- `ProfileMemory._looks_spanish_schema` (profile_memory.py:100-101). -/
def _looks_spanish_schema (data : Json) : Except PyErr Bool := do
  let b1 ← pyIn "identidad" data
  if b1 then pure true else do
  let b2 ← pyIn "perfil_largo" data
  if b2 then pure true else
  pyIn "competencias" data

/-- The body of the per-experience loop of
`ProfileMemory._migrate_french_to_english` (profile_memory.py:35-42). -/
def _fr_exp_to_en (exp : Json) : Except PyErr Json := do
  let company ← pyGetD exp "entreprise" Json.null
  let location ← pyGetD exp "lieu" Json.null
  let role ← pyGetD exp "poste" Json.null
  let dates ← pyGetD exp "dates" Json.null
  let missions ← pyGetD exp "missions" (Json.arr [])
  pure (Json.obj [("company", company), ("location", location),
    ("role", role), ("dates", dates), ("missions", missions)])

/-- `ProfileMemory._migrate_french_to_english` (profile_memory.py:28-61),
field accesses in the source's evaluation order. `fr.get('centres_interet')`
and the other one-argument `.get` calls default to Python `None` (`Json.null`). -/
def _migrate_french_to_english (fr : Json) : Except PyErr Json := do
  let identity ← pyGetD fr "identite" (Json.obj [])
  let experiences_fr ← pyGetD fr "experiences" (Json.arr [])
  let competences_fr ← pyGetD fr "competences" (Json.obj [])
  let interests ← pyGetD fr "centres_interet" Json.null
  let exps ← pyIterList experiences_fr
  let experiences_en ← exps.mapM _fr_exp_to_en
  let name ← pyGetD identity "nom" Json.null
  let title ← pyGetD identity "titre" Json.null
  let long_profile ← pyGetD fr "profil_long" Json.null
  let technical ← pyGetD competences_fr "techniques" (Json.arr [])
  let methodological ← pyGetD competences_fr "methodologiques" (Json.arr [])
  let education ← pyGetD fr "formation" Json.null
  let languages ← pyGetD fr "langues" (Json.arr [])
  let memory_notes ← pyGetD fr "memory_notes" (Json.obj [])
  pure (Json.obj [
    ("identity", Json.obj [("name", name), ("title", title)]),
    ("long_profile", long_profile),
    ("experiences", Json.arr experiences_en),
    ("skills", Json.obj [("technical", technical), ("methodological", methodological)]),
    ("education", education),
    ("languages", languages),
    ("interests", if isNull interests then Json.arr [] else interests),
    ("memory_notes", memory_notes)])

/-- The body of the per-experience loop of
`ProfileMemory._migrate_spanish_to_english` (profile_memory.py:70-77). -/
def _es_exp_to_en (exp : Json) : Except PyErr Json := do
  let company ← pyGetD exp "empresa" Json.null
  let location ← pyGetD exp "lugar" Json.null
  let role ← pyGetD exp "puesto" Json.null
  let dates ← pyGetD exp "fechas" Json.null
  let missions ← pyGetD exp "misiones" (Json.arr [])
  pure (Json.obj [("company", company), ("location", location),
    ("role", role), ("dates", dates), ("missions", missions)])

/-- `ProfileMemory._migrate_spanish_to_english` (profile_memory.py:63-95). -/
def _migrate_spanish_to_english (es : Json) : Except PyErr Json := do
  let identidad ← pyGetD es "identidad" (Json.obj [])
  let experiencias_es ← pyGetD es "experiencias" (Json.arr [])
  let competencias_es ← pyGetD es "competencias" (Json.obj [])
  let intereses ← pyGetD es "intereses" Json.null
  let exps ← pyIterList experiencias_es
  let experiencias_en ← exps.mapM _es_exp_to_en
  let name ← pyGetD identidad "nombre" Json.null
  let title ← pyGetD identidad "titulo" Json.null
  let long_profile ← pyGetD es "perfil_largo" Json.null
  let technical ← pyGetD competencias_es "tecnicas" (Json.arr [])
  let methodological ← pyGetD competencias_es "metodologicas" (Json.arr [])
  let education ← pyGetD es "formacion" Json.null
  let languages ← pyGetD es "idiomas" (Json.arr [])
  let memory_notes ← pyGetD es "memory_notes" (Json.obj [])
  pure (Json.obj [
    ("identity", Json.obj [("name", name), ("title", title)]),
    ("long_profile", long_profile),
    ("experiences", Json.arr experiencias_en),
    ("skills", Json.obj [("technical", technical), ("methodological", methodological)]),
    ("education", education),
    ("languages", languages),
    ("interests", if isNull intereses then Json.arr [] else intereses),
    ("memory_notes", memory_notes)])

/-- `ProfileMemory.save` (profile_memory.py:24-26): overwrite the backing file
with the serialized document (the file is modelled by its parsed contents). -/
def save (profile : Json) (_st : Option Json) : Option Json :=
  some profile

/-- `ProfileMemory.load` (profile_memory.py:9-22): raise `FileNotFoundError`
with the remediation message when the file is absent; otherwise read the
document, migrate it when a dialect sentinel is detected (re-saving the
migrated form), and return it. Returns the document together with the
resulting file state. -/
def load (path : String) (st : Option Json) : Except PyErr (Json × Option Json) :=
  match st with
  | none => Except.error (PyErr.fileNotFound
      ("Profile file not found: " ++ path ++ ". Please run the profile preparer first."))
  | some data => do
      let isFr ← _looks_french_schema data
      if isFr then do
        let d ← _migrate_french_to_english data
        pure (d, save d st)
      else do
        let isEs ← _looks_spanish_schema data
        if isEs then do
          let d ← _migrate_spanish_to_english data
          pure (d, save d st)
        else pure (data, st)

/-- The Schema Migrator: the dialect dispatch `load` performs on a document it
has read (profile_memory.py:15-22), detached from the file so that algebraic
properties (`migrate (migrate x) = migrate x`, …) can be stated. -/
def migrate (data : Json) : Except PyErr Json := do
  let isFr ← _looks_french_schema data
  if isFr then _migrate_french_to_english data
  else do
    let isEs ← _looks_spanish_schema data
    if isEs then _migrate_spanish_to_english data
    else pure data

/-- `ProfileMemory.record_adaptation_note` (profile_memory.py:103-108):
load, insert/overwrite `memory_notes[job_title] = note`, save. Returns the
resulting file state. -/
def record_adaptation_note (path : String) (st : Option Json)
    (job_title note : String) : Except PyErr (Option Json) := do
  let r ← load path st
  let data := r.1
  let memory_notes ← pyGetD data "memory_notes" (Json.obj [])
  let mn ← pySetItem memory_notes job_title (Json.str note)
  let data1 ← pySetItem data "memory_notes" mn
  pure (save data1 r.2)

/-! ### Dialect sentinels and document shapes (statement vocabulary) -/

/-- The French sentinel test on a dict's key list. -/
def frSentinelB (kvs : List (String × Json)) : Bool :=
  hasKey kvs "identite" || hasKey kvs "profil_long" || hasKey kvs "competences"

/-- The Spanish sentinel test on a dict's key list. -/
def esSentinelB (kvs : List (String × Json)) : Bool :=
  hasKey kvs "identidad" || hasKey kvs "perfil_largo" || hasKey kvs "competencias"

theorem looks_french_obj (kvs : List (String × Json)) :
    _looks_french_schema (Json.obj kvs) = Except.ok (frSentinelB kvs) := by
  simp only [_looks_french_schema, pyIn, frSentinelB, bind, Except.bind, pure, Except.pure]
  cases h1 : hasKey kvs "identite" <;> cases h2 : hasKey kvs "profil_long" <;> simp

theorem looks_spanish_obj (kvs : List (String × Json)) :
    _looks_spanish_schema (Json.obj kvs) = Except.ok (esSentinelB kvs) := by
  simp only [_looks_spanish_schema, pyIn, esSentinelB, bind, Except.bind, pure, Except.pure]
  cases h1 : hasKey kvs "identidad" <;> cases h2 : hasKey kvs "perfil_largo" <;> simp

/-- The canonical-document shape the spec requires after migration: all
required canonical keys present (`identity` with `name` and `title`,
`long_profile`, `experiences`, `skills` with both categories, `education`,
`languages`, `interests`, `memory_notes`). -/
def hasCanonicalShapeB : Json → Bool
  | Json.obj kvs =>
      (match lookupKey kvs "identity" with
        | some (Json.obj iks) => hasKey iks "name" && hasKey iks "title"
        | _ => false) &&
      hasKey kvs "long_profile" && hasKey kvs "experiences" &&
      (match lookupKey kvs "skills" with
        | some (Json.obj sks) => hasKey sks "technical" && hasKey sks "methodological"
        | _ => false) &&
      hasKey kvs "education" && hasKey kvs "languages" &&
      hasKey kvs "interests" && hasKey kvs "memory_notes"
  | _ => false

/-- The French-dialect document of the spec's concrete self-healing scenario
(`"..."` placeholders kept as literal strings, `[...]` as the empty list). -/
def frenchSampleDoc : Json := Json.obj [
  ("identite", Json.obj [("nom", Json.str "Ana Dupont"), ("titre", Json.str "Ingénieure")]),
  ("profil_long", Json.str "..."),
  ("experiences", Json.arr []),
  ("competences", Json.obj [("techniques", Json.arr [Json.str "Python"]),
    ("methodologiques", Json.arr [])]),
  ("formation", Json.str "..."),
  ("langues", Json.arr [Json.str "Français (natif)"])]

/-- The canonical document the spec expects `load()` to yield for
`frenchSampleDoc`. -/
def canonicalSampleDoc : Json := Json.obj [
  ("identity", Json.obj [("name", Json.str "Ana Dupont"), ("title", Json.str "Ingénieure")]),
  ("long_profile", Json.str "..."),
  ("experiences", Json.arr []),
  ("skills", Json.obj [("technical", Json.arr [Json.str "Python"]),
    ("methodological", Json.arr [])]),
  ("education", Json.str "..."),
  ("languages", Json.arr [Json.str "Français (natif)"]),
  ("interests", Json.arr []),
  ("memory_notes", Json.obj [])]

/-- C4. Self-healing load: on a file holding the French-dialect sample
document, `load()` returns exactly the expected canonical document AND
rewrites the file to that canonical document (so a subsequent raw read shows
canonical keys only); the result validates against the canonical shape. -/
theorem self_healing_load_french_sample :
    load "profile_structure.json" (some frenchSampleDoc)
        = Except.ok (canonicalSampleDoc, some canonicalSampleDoc)
    ∧ hasCanonicalShapeB canonicalSampleDoc = true := by
  exact ⟨rfl, rfl⟩

/-- C6. Round-trip persistence: for any canonical document (a mapping with
none of the legacy sentinel keys), `load` after `save` returns the document
unchanged, and the file still holds exactly that document. -/
theorem round_trip_persistence (p : String) (st : Option Json)
    (kvs : List (String × Json))
    (hfr : frSentinelB kvs = false) (hes : esSentinelB kvs = false) :
    load p (save (Json.obj kvs) st)
      = Except.ok (Json.obj kvs, some (Json.obj kvs)) := by
  simp [load, save, looks_french_obj, looks_spanish_obj, hfr, hes,
    bind, Except.bind, pure, Except.pure]

/-- Witness for C6 at a concrete canonical document. -/
theorem round_trip_persistence_witness :
    load "profile_structure.json" (save (Json.obj [("identity", Json.null)]) none)
      = Except.ok (Json.obj [("identity", Json.null)],
          some (Json.obj [("identity", Json.null)])) :=
  round_trip_persistence "profile_structure.json" none
    [("identity", Json.null)] rfl rfl

/-- C8. Load on an absent backing file fails with `FileNotFoundError` whose
message names running the profile preparer as the remediation, and no other
outcome occurs. -/
theorem load_missing_file (path : String) :
    load path none = Except.error (PyErr.fileNotFound
        ("Profile file not found: " ++ path ++ ". Please run the profile preparer first."))
    ∧ strContains ". Please run the profile preparer first." "profile preparer" = true :=
  ⟨rfl, rfl⟩

/-! ### Inversion of successful `Except` computations -/

theorem except_bind_ok {α β : Type} {m : Except PyErr α} {f : α → Except PyErr β} {b : β}
    (h : (m >>= f) = Except.ok b) : ∃ a, m = Except.ok a ∧ f a = Except.ok b := by
  cases m with
  | error e => simp [bind, Except.bind] at h
  | ok a => exact ⟨a, rfl, by simpa [bind, Except.bind] using h⟩

/-- `Except.isOk` as a plain Boolean (no exception was raised). -/
def isOkB {α : Type} : Except PyErr α → Bool
  | Except.ok _ => true
  | Except.error _ => false

/-! ### Well-shaped dialect documents -/

def isObjB : Json → Bool
  | Json.obj _ => true
  | _ => false

def isArrOfObjsB : Json → Bool
  | Json.arr xs => xs.all isObjB
  | _ => false

/-- Sub-fields of a French-dialect mapping have the types the migration code
dereferences: `identite` a mapping, `experiences` a sequence of mappings,
`competences` a mapping — whenever present. -/
def frShapeB (kvs : List (String × Json)) : Bool :=
  (match lookupKey kvs "identite" with
    | none => true
    | some v => isObjB v) &&
  (match lookupKey kvs "experiences" with
    | none => true
    | some v => isArrOfObjsB v) &&
  (match lookupKey kvs "competences" with
    | none => true
    | some v => isObjB v)

/-- The Spanish analogue of `frShapeB`. -/
def esShapeB (kvs : List (String × Json)) : Bool :=
  (match lookupKey kvs "identidad" with
    | none => true
    | some v => isObjB v) &&
  (match lookupKey kvs "experiencias" with
    | none => true
    | some v => isArrOfObjsB v) &&
  (match lookupKey kvs "competencias" with
    | none => true
    | some v => isObjB v)

/-- `dict.get` with default, as a pure value (for stating results). -/
def getKD (kvs : List (String × Json)) (k : String) (d : Json) : Json :=
  (lookupKey kvs k).getD d

def asObjKvs : Json → List (String × Json)
  | Json.obj kvs => kvs
  | _ => []

def asArrElems : Json → List Json
  | Json.arr xs => xs
  | _ => []

/-- What the French per-experience rename produces on a well-typed record. -/
def frExpMigrated (ekvs : List (String × Json)) : Json := Json.obj [
  ("company", getKD ekvs "entreprise" Json.null),
  ("location", getKD ekvs "lieu" Json.null),
  ("role", getKD ekvs "poste" Json.null),
  ("dates", getKD ekvs "dates" Json.null),
  ("missions", getKD ekvs "missions" (Json.arr []))]

/-- What the French migration produces on a well-shaped mapping: the
field-by-field rename, absent sequence fields defaulting to `[]`, absent
`memory_notes` to `{}`, and absent scalar fields to `null`. -/
def frMigrated (kvs : List (String × Json)) : Json := Json.obj [
  ("identity", Json.obj [
    ("name", getKD (asObjKvs (getKD kvs "identite" (Json.obj []))) "nom" Json.null),
    ("title", getKD (asObjKvs (getKD kvs "identite" (Json.obj []))) "titre" Json.null)]),
  ("long_profile", getKD kvs "profil_long" Json.null),
  ("experiences", Json.arr ((asArrElems (getKD kvs "experiences" (Json.arr []))).map
      (fun e => frExpMigrated (asObjKvs e)))),
  ("skills", Json.obj [
    ("technical", getKD (asObjKvs (getKD kvs "competences" (Json.obj []))) "techniques" (Json.arr [])),
    ("methodological", getKD (asObjKvs (getKD kvs "competences" (Json.obj []))) "methodologiques" (Json.arr []))]),
  ("education", getKD kvs "formation" Json.null),
  ("languages", getKD kvs "langues" (Json.arr [])),
  ("interests", if isNull (getKD kvs "centres_interet" Json.null) then Json.arr []
    else getKD kvs "centres_interet" Json.null),
  ("memory_notes", getKD kvs "memory_notes" (Json.obj []))]

/-- The Spanish analogue of `frExpMigrated`. -/
def esExpMigrated (ekvs : List (String × Json)) : Json := Json.obj [
  ("company", getKD ekvs "empresa" Json.null),
  ("location", getKD ekvs "lugar" Json.null),
  ("role", getKD ekvs "puesto" Json.null),
  ("dates", getKD ekvs "fechas" Json.null),
  ("missions", getKD ekvs "misiones" (Json.arr []))]

/-- The Spanish analogue of `frMigrated`. -/
def esMigrated (kvs : List (String × Json)) : Json := Json.obj [
  ("identity", Json.obj [
    ("name", getKD (asObjKvs (getKD kvs "identidad" (Json.obj []))) "nombre" Json.null),
    ("title", getKD (asObjKvs (getKD kvs "identidad" (Json.obj []))) "titulo" Json.null)]),
  ("long_profile", getKD kvs "perfil_largo" Json.null),
  ("experiences", Json.arr ((asArrElems (getKD kvs "experiencias" (Json.arr []))).map
      (fun e => esExpMigrated (asObjKvs e)))),
  ("skills", Json.obj [
    ("technical", getKD (asObjKvs (getKD kvs "competencias" (Json.obj []))) "tecnicas" (Json.arr [])),
    ("methodological", getKD (asObjKvs (getKD kvs "competencias" (Json.obj []))) "metodologicas" (Json.arr []))]),
  ("education", getKD kvs "formacion" Json.null),
  ("languages", getKD kvs "idiomas" (Json.arr [])),
  ("interests", if isNull (getKD kvs "intereses" Json.null) then Json.arr []
    else getKD kvs "intereses" Json.null),
  ("memory_notes", getKD kvs "memory_notes" (Json.obj []))]

theorem fr_exp_to_en_obj (ekvs : List (String × Json)) :
    _fr_exp_to_en (Json.obj ekvs) = Except.ok (frExpMigrated ekvs) := by
  simp [_fr_exp_to_en, pyGetD, frExpMigrated, getKD, bind, Except.bind, pure, Except.pure]

theorem es_exp_to_en_obj (ekvs : List (String × Json)) :
    _es_exp_to_en (Json.obj ekvs) = Except.ok (esExpMigrated ekvs) := by
  simp [_es_exp_to_en, pyGetD, esExpMigrated, getKD, bind, Except.bind, pure, Except.pure]

theorem mapM_fr_exp (xs : List Json) (h : xs.all isObjB = true) :
    xs.mapM _fr_exp_to_en
      = Except.ok (xs.map (fun e => frExpMigrated (asObjKvs e))) := by
  induction xs with
  | nil => rfl
  | cons x rest ih =>
      rw [List.all_cons, Bool.and_eq_true] at h
      obtain ⟨hx, hrest⟩ := h
      cases x <;> simp [isObjB] at hx
      rw [List.mapM_cons, fr_exp_to_en_obj, ih hrest]
      simp [bind, Except.bind, pure, Except.pure, asObjKvs]

theorem mapM_es_exp (xs : List Json) (h : xs.all isObjB = true) :
    xs.mapM _es_exp_to_en
      = Except.ok (xs.map (fun e => esExpMigrated (asObjKvs e))) := by
  induction xs with
  | nil => rfl
  | cons x rest ih =>
      rw [List.all_cons, Bool.and_eq_true] at h
      obtain ⟨hx, hrest⟩ := h
      cases x <;> simp [isObjB] at hx
      rw [List.mapM_cons, es_exp_to_en_obj, ih hrest]
      simp [bind, Except.bind, pure, Except.pure, asObjKvs]

theorem pyGetD_obj (kvs : List (String × Json)) (k : String) (d : Json) :
    pyGetD (Json.obj kvs) k d = Except.ok (getKD kvs k d) := rfl

theorem isObjB_eq (v : Json) (h : isObjB v = true) : ∃ kvs, v = Json.obj kvs := by
  cases v <;> simp [isObjB] at h ⊢

theorem isArrOfObjsB_eq (v : Json) (h : isArrOfObjsB v = true) :
    ∃ xs, v = Json.arr xs ∧ xs.all isObjB = true := by
  cases v <;> simp [isArrOfObjsB] at h ⊢
  exact h

theorem migrate_fr_wellshaped (kvs : List (String × Json)) (hsh : frShapeB kvs = true) :
    _migrate_french_to_english (Json.obj kvs) = Except.ok (frMigrated kvs) := by
  rw [frShapeB, Bool.and_eq_true, Bool.and_eq_true] at hsh
  obtain ⟨⟨hid, hexp⟩, hcomp⟩ := hsh
  have hID : ∃ ikvs, getKD kvs "identite" (Json.obj []) = Json.obj ikvs := by
    cases h : lookupKey kvs "identite" with
    | none => exact ⟨[], by simp [getKD, h]⟩
    | some v =>
        rw [h] at hid
        obtain ⟨ikvs, rfl⟩ := isObjB_eq v hid
        exact ⟨ikvs, by simp [getKD, h]⟩
  have hCO : ∃ ckvs, getKD kvs "competences" (Json.obj []) = Json.obj ckvs := by
    cases h : lookupKey kvs "competences" with
    | none => exact ⟨[], by simp [getKD, h]⟩
    | some v =>
        rw [h] at hcomp
        obtain ⟨ckvs, rfl⟩ := isObjB_eq v hcomp
        exact ⟨ckvs, by simp [getKD, h]⟩
  have hEX : ∃ xs, getKD kvs "experiences" (Json.arr []) = Json.arr xs
      ∧ xs.all isObjB = true := by
    cases h : lookupKey kvs "experiences" with
    | none => exact ⟨[], by simp [getKD, h], rfl⟩
    | some v =>
        rw [h] at hexp
        obtain ⟨xs, rfl, hall⟩ := isArrOfObjsB_eq v hexp
        exact ⟨xs, by simp [getKD, h], hall⟩
  obtain ⟨ikvs, hI⟩ := hID
  obtain ⟨ckvs, hC⟩ := hCO
  obtain ⟨xs, hX, hall⟩ := hEX
  unfold _migrate_french_to_english frMigrated
  rw [pyGetD_obj, pyGetD_obj, pyGetD_obj, pyGetD_obj, hI, hC, hX]
  simp only [bind, Except.bind, pyIterList, mapM_fr_exp xs hall, pyGetD_obj,
    pure, Except.pure, hI, hC, hX, asObjKvs, asArrElems]

theorem migrate_es_wellshaped (kvs : List (String × Json)) (hsh : esShapeB kvs = true) :
    _migrate_spanish_to_english (Json.obj kvs) = Except.ok (esMigrated kvs) := by
  rw [esShapeB, Bool.and_eq_true, Bool.and_eq_true] at hsh
  obtain ⟨⟨hid, hexp⟩, hcomp⟩ := hsh
  have hID : ∃ ikvs, getKD kvs "identidad" (Json.obj []) = Json.obj ikvs := by
    cases h : lookupKey kvs "identidad" with
    | none => exact ⟨[], by simp [getKD, h]⟩
    | some v =>
        rw [h] at hid
        obtain ⟨ikvs, rfl⟩ := isObjB_eq v hid
        exact ⟨ikvs, by simp [getKD, h]⟩
  have hCO : ∃ ckvs, getKD kvs "competencias" (Json.obj []) = Json.obj ckvs := by
    cases h : lookupKey kvs "competencias" with
    | none => exact ⟨[], by simp [getKD, h]⟩
    | some v =>
        rw [h] at hcomp
        obtain ⟨ckvs, rfl⟩ := isObjB_eq v hcomp
        exact ⟨ckvs, by simp [getKD, h]⟩
  have hEX : ∃ xs, getKD kvs "experiencias" (Json.arr []) = Json.arr xs
      ∧ xs.all isObjB = true := by
    cases h : lookupKey kvs "experiencias" with
    | none => exact ⟨[], by simp [getKD, h], rfl⟩
    | some v =>
        rw [h] at hexp
        obtain ⟨xs, rfl, hall⟩ := isArrOfObjsB_eq v hexp
        exact ⟨xs, by simp [getKD, h], hall⟩
  obtain ⟨ikvs, hI⟩ := hID
  obtain ⟨ckvs, hC⟩ := hCO
  obtain ⟨xs, hX, hall⟩ := hEX
  unfold _migrate_spanish_to_english esMigrated
  rw [pyGetD_obj, pyGetD_obj, pyGetD_obj, pyGetD_obj, hI, hC, hX]
  simp only [bind, Except.bind, pyIterList, mapM_es_exp xs hall, pyGetD_obj,
    pure, Except.pure, hI, hC, hX, asObjKvs, asArrElems]

/-- C2 (amended). On any mapping bearing a recognized dialect sentinel whose
dialect sub-fields (when present) have the dereferenced types, `migrate` does
not raise and returns exactly the field-by-field rename with defaults: absent
sequence fields become `[]`, absent `memory_notes` becomes `{}`, and absent
scalar source fields become `null`; the output contains every required
canonical key. -/
theorem migrate_total_wellshaped (kvs : List (String × Json)) :
    (frSentinelB kvs = true → frShapeB kvs = true →
      migrate (Json.obj kvs) = Except.ok (frMigrated kvs)
      ∧ hasCanonicalShapeB (frMigrated kvs) = true)
    ∧ (frSentinelB kvs = false → esSentinelB kvs = true → esShapeB kvs = true →
      migrate (Json.obj kvs) = Except.ok (esMigrated kvs)
      ∧ hasCanonicalShapeB (esMigrated kvs) = true) := by
  constructor
  · intro hs hsh
    refine ⟨?_, rfl⟩
    simp [migrate, looks_french_obj, hs, bind, Except.bind,
      migrate_fr_wellshaped kvs hsh]
  · intro hf hs hsh
    refine ⟨?_, rfl⟩
    simp [migrate, looks_french_obj, looks_spanish_obj, hf, hs, bind, Except.bind,
      migrate_es_wellshaped kvs hsh]

/-- C2 counterexample: the mapping `{"identite": "bob"}` carries the French
sentinel key `identite`, yet `migrate` raises `AttributeError` on it
(`identity.get('nom')` with `identity` a string), so migration is not total
over all sentinel-bearing mappings. -/
theorem migrate_total_counterexample :
    frSentinelB [("identite", Json.str "bob")] = true
    ∧ migrate (Json.obj [("identite", Json.str "bob")])
        = Except.error (PyErr.attributeError "get")
    ∧ isOkB (migrate (Json.obj [("identite", Json.str "bob")])) = false :=
  ⟨rfl, rfl, rfl⟩

/-- Witness for C2 (amended) at a concrete well-shaped French document. -/
theorem migrate_total_wellshaped_witness :
    migrate (Json.obj [("identite", Json.obj [("nom", Json.str "Ana")])])
      = Except.ok (frMigrated [("identite", Json.obj [("nom", Json.str "Ana")])])
    ∧ hasCanonicalShapeB (frMigrated [("identite", Json.obj [("nom", Json.str "Ana")])]) = true :=
  (migrate_total_wellshaped [("identite", Json.obj [("nom", Json.str "Ana")])]).1 rfl rfl

theorem fr_output_form (x y : Json) (h : _migrate_french_to_english x = Except.ok y) :
    ∃ idv lp ex sk ed lg it mn, y = Json.obj [("identity", idv), ("long_profile", lp),
      ("experiences", ex), ("skills", sk), ("education", ed), ("languages", lg),
      ("interests", it), ("memory_notes", mn)] := by
  unfold _migrate_french_to_english at h
  obtain ⟨a1, h1, h⟩ := except_bind_ok h
  obtain ⟨a2, h2, h⟩ := except_bind_ok h
  obtain ⟨a3, h3, h⟩ := except_bind_ok h
  obtain ⟨a4, h4, h⟩ := except_bind_ok h
  obtain ⟨a5, h5, h⟩ := except_bind_ok h
  obtain ⟨a6, h6, h⟩ := except_bind_ok h
  obtain ⟨a7, h7, h⟩ := except_bind_ok h
  obtain ⟨a8, h8, h⟩ := except_bind_ok h
  obtain ⟨a9, h9, h⟩ := except_bind_ok h
  obtain ⟨a10, h10, h⟩ := except_bind_ok h
  obtain ⟨a11, h11, h⟩ := except_bind_ok h
  obtain ⟨a12, h12, h⟩ := except_bind_ok h
  obtain ⟨a13, h13, h⟩ := except_bind_ok h
  obtain ⟨a14, h14, h⟩ := except_bind_ok h
  simp only [pure, Except.pure, Except.ok.injEq] at h
  exact ⟨_, _, _, _, _, _, _, _, h.symm⟩

theorem es_output_form (x y : Json) (h : _migrate_spanish_to_english x = Except.ok y) :
    ∃ idv lp ex sk ed lg it mn, y = Json.obj [("identity", idv), ("long_profile", lp),
      ("experiences", ex), ("skills", sk), ("education", ed), ("languages", lg),
      ("interests", it), ("memory_notes", mn)] := by
  unfold _migrate_spanish_to_english at h
  obtain ⟨a1, h1, h⟩ := except_bind_ok h
  obtain ⟨a2, h2, h⟩ := except_bind_ok h
  obtain ⟨a3, h3, h⟩ := except_bind_ok h
  obtain ⟨a4, h4, h⟩ := except_bind_ok h
  obtain ⟨a5, h5, h⟩ := except_bind_ok h
  obtain ⟨a6, h6, h⟩ := except_bind_ok h
  obtain ⟨a7, h7, h⟩ := except_bind_ok h
  obtain ⟨a8, h8, h⟩ := except_bind_ok h
  obtain ⟨a9, h9, h⟩ := except_bind_ok h
  obtain ⟨a10, h10, h⟩ := except_bind_ok h
  obtain ⟨a11, h11, h⟩ := except_bind_ok h
  obtain ⟨a12, h12, h⟩ := except_bind_ok h
  obtain ⟨a13, h13, h⟩ := except_bind_ok h
  obtain ⟨a14, h14, h⟩ := except_bind_ok h
  simp only [pure, Except.pure, Except.ok.injEq] at h
  exact ⟨_, _, _, _, _, _, _, _, h.symm⟩

/-- A document whose top-level keys are exactly the eight canonical ones
carries no dialect sentinel, so `migrate` passes it through unchanged. -/
theorem migrate_canonical_literal (idv lp ex sk ed lg it mn : Json) :
    migrate (Json.obj [("identity", idv), ("long_profile", lp), ("experiences", ex),
      ("skills", sk), ("education", ed), ("languages", lg), ("interests", it),
      ("memory_notes", mn)])
      = Except.ok (Json.obj [("identity", idv), ("long_profile", lp), ("experiences", ex),
        ("skills", sk), ("education", ed), ("languages", lg), ("interests", it),
        ("memory_notes", mn)]) := rfl

/-- C7. Idempotent migration: running the dialect dispatch twice equals
running it once — on every input, raising inputs included (an error
propagates unchanged through the second run); and an already-canonical
mapping (no sentinel key) is passed through as a no-op. -/
theorem migrate_idempotent :
    (∀ x, (migrate x >>= migrate) = migrate x)
    ∧ (∀ kvs, frSentinelB kvs = false → esSentinelB kvs = false →
        migrate (Json.obj kvs) = Except.ok (Json.obj kvs)) := by
  constructor
  · intro x
    cases hm : migrate x with
    | error e => simp [bind, Except.bind]
    | ok y =>
        simp only [bind, Except.bind]
        have hm2 := hm
        unfold migrate at hm2
        obtain ⟨bFr, hFr, hm2⟩ := except_bind_ok hm2
        cases bFr with
        | true =>
            simp only [if_true] at hm2
            obtain ⟨idv, lp, ex, sk, ed, lg, it, mn, rfl⟩ := fr_output_form x y hm2
            exact migrate_canonical_literal idv lp ex sk ed lg it mn
        | false =>
            simp only [Bool.false_eq_true, if_false] at hm2
            obtain ⟨bEs, hEs, hm2⟩ := except_bind_ok hm2
            cases bEs with
            | true =>
                simp only [if_true] at hm2
                obtain ⟨idv, lp, ex, sk, ed, lg, it, mn, rfl⟩ := es_output_form x y hm2
                exact migrate_canonical_literal idv lp ex sk ed lg it mn
            | false =>
                simp only [Bool.false_eq_true, if_false, pure, Except.pure,
                  Except.ok.injEq] at hm2
                subst hm2
                simp [migrate, hFr, hEs, bind, Except.bind, pure, Except.pure]
  · intro kvs hfr hes
    simp [migrate, looks_french_obj, looks_spanish_obj, hfr, hes,
      bind, Except.bind, pure, Except.pure]

/-- Witness for C7 at concrete inputs: a legacy French document for the
idempotence part and an already-canonical mapping for the no-op part. -/
theorem migrate_idempotent_witness :
    (migrate (Json.obj [("profil_long", Json.str "p")]) >>= migrate)
      = migrate (Json.obj [("profil_long", Json.str "p")])
    ∧ migrate (Json.obj [("identity", Json.null)])
      = Except.ok (Json.obj [("identity", Json.null)]) :=
  ⟨migrate_idempotent.1 (Json.obj [("profil_long", Json.str "p")]),
   migrate_idempotent.2 [("identity", Json.null)] rfl rfl⟩

/-- C9. Dialect detection priority: the French sentinel set is checked before
the Spanish one, so a mapping bearing sentinels of both dialects gets the
French migration; and when no sentinel of either dialect is present, `load`
returns the document unchanged and does not rewrite the file. -/
theorem dialect_priority :
    (∀ kvs, frSentinelB kvs = true → esSentinelB kvs = true →
      migrate (Json.obj kvs) = _migrate_french_to_english (Json.obj kvs))
    ∧ (∀ p kvs, frSentinelB kvs = false → esSentinelB kvs = false →
      load p (some (Json.obj kvs)) = Except.ok (Json.obj kvs, some (Json.obj kvs))) := by
  constructor
  · intro kvs hf _hs
    simp [migrate, looks_french_obj, hf, bind, Except.bind]
  · intro p kvs hf hs
    simp [load, looks_french_obj, looks_spanish_obj, hf, hs,
      bind, Except.bind, pure, Except.pure]

/-- Witness for C9: a mapping carrying both sentinel sets takes the French
path; a sentinel-free mapping is loaded unchanged with no file rewrite. -/
theorem dialect_priority_witness :
    migrate (Json.obj [("identite", Json.obj []), ("identidad", Json.obj [])])
      = _migrate_french_to_english (Json.obj [("identite", Json.obj []), ("identidad", Json.obj [])])
    ∧ load "profile_structure.json" (some (Json.obj [("identity", Json.null)]))
      = Except.ok (Json.obj [("identity", Json.null)], some (Json.obj [("identity", Json.null)])) :=
  ⟨dialect_priority.1 [("identite", Json.obj []), ("identidad", Json.obj [])] rfl rfl,
   dialect_priority.2 "profile_structure.json" [("identity", Json.null)] rfl rfl⟩

/-! ### `insertKey` algebra (Python dict update) -/

theorem lookup_insert_self (kvs : List (String × Json)) (k : String) (v : Json) :
    lookupKey (insertKey kvs k v) k = some v := by
  induction kvs with
  | nil => simp [insertKey, lookupKey]
  | cons kv rest ih =>
      by_cases h : kv.1 = k
      · simp [insertKey, lookupKey, h]
      · simp [insertKey, lookupKey, h, ih]

theorem lookup_insert_ne (kvs : List (String × Json)) (k : String) (v : Json)
    (k' : String) (h : k' ≠ k) :
    lookupKey (insertKey kvs k v) k' = lookupKey kvs k' := by
  have hne : ¬ (k = k') := fun hh => h hh.symm
  induction kvs with
  | nil => simp [insertKey, lookupKey, hne]
  | cons kv rest ih =>
      by_cases hk : kv.1 = k
      · have h2 : ¬ (kv.1 = k') := by rw [hk]; exact hne
        simp [insertKey, lookupKey, hk, h2, hne]
      · simp [insertKey, lookupKey, hk, ih]

theorem hasKey_insert_ne (kvs : List (String × Json)) (k : String) (v : Json)
    (k' : String) (h : k' ≠ k) :
    hasKey (insertKey kvs k v) k' = hasKey kvs k' := by
  simp [hasKey, lookup_insert_ne kvs k v k' h]

theorem insert_insert (kvs : List (String × Json)) (k : String) (v w : Json) :
    insertKey (insertKey kvs k v) k w = insertKey kvs k w := by
  induction kvs with
  | nil => simp [insertKey]
  | cons kv rest ih =>
      by_cases hk : kv.1 = k
      · simp [insertKey, hk]
      · simp [insertKey, hk, ih]

theorem frSentinelB_insert_notes (kvs : List (String × Json)) (v : Json) :
    frSentinelB (insertKey kvs "memory_notes" v) = frSentinelB kvs := by
  simp [frSentinelB,
    hasKey_insert_ne kvs "memory_notes" v "identite" (by decide),
    hasKey_insert_ne kvs "memory_notes" v "profil_long" (by decide),
    hasKey_insert_ne kvs "memory_notes" v "competences" (by decide)]

theorem esSentinelB_insert_notes (kvs : List (String × Json)) (v : Json) :
    esSentinelB (insertKey kvs "memory_notes" v) = esSentinelB kvs := by
  simp [esSentinelB,
    hasKey_insert_ne kvs "memory_notes" v "identidad" (by decide),
    hasKey_insert_ne kvs "memory_notes" v "perfil_largo" (by decide),
    hasKey_insert_ne kvs "memory_notes" v "competencias" (by decide)]

/-- One `record_adaptation_note` call on a persisted sentinel-free document
whose `memory_notes` (absent defaults to `{}`) holds `ns`. -/
theorem record_single (p : String) (kvs ns : List (String × Json)) (jt note : String)
    (hfr : frSentinelB kvs = false) (hes : esSentinelB kvs = false)
    (hmn : getKD kvs "memory_notes" (Json.obj []) = Json.obj ns) :
    record_adaptation_note p (some (Json.obj kvs)) jt note
      = Except.ok (some (Json.obj (insertKey kvs "memory_notes"
          (Json.obj (insertKey ns jt (Json.str note)))))) := by
  simp [record_adaptation_note, load, looks_french_obj, looks_spanish_obj, hfr, hes,
    pyGetD_obj, hmn, pySetItem, save, bind, Except.bind, pure, Except.pure]

/-- C5. Note ledger append-only growth with frame: from a persisted canonical
(sentinel-free) document with empty-or-absent `memory_notes`, recording
"Engineer"/"note A" then "Designer"/"note B" yields
`memory_notes == {"Engineer": "note A", "Designer": "note B"}`; re-recording
"Engineer" overwrites only that key's value; and every top-level field other
than `memory_notes` is left unchanged. -/
theorem note_ledger_append (p : String) (kvs : List (String × Json))
    (hfr : frSentinelB kvs = false) (hes : esSentinelB kvs = false)
    (hmn : lookupKey kvs "memory_notes" = none
        ∨ lookupKey kvs "memory_notes" = some (Json.obj [])) :
    record_adaptation_note p (some (Json.obj kvs)) "Engineer" "note A"
      = Except.ok (some (Json.obj (insertKey kvs "memory_notes"
          (Json.obj [("Engineer", Json.str "note A")]))))
    ∧ record_adaptation_note p
        (some (Json.obj (insertKey kvs "memory_notes"
          (Json.obj [("Engineer", Json.str "note A")])))) "Designer" "note B"
      = Except.ok (some (Json.obj (insertKey kvs "memory_notes"
          (Json.obj [("Engineer", Json.str "note A"), ("Designer", Json.str "note B")]))))
    ∧ lookupKey (insertKey kvs "memory_notes"
          (Json.obj [("Engineer", Json.str "note A"), ("Designer", Json.str "note B")]))
        "memory_notes"
      = some (Json.obj [("Engineer", Json.str "note A"), ("Designer", Json.str "note B")])
    ∧ record_adaptation_note p
        (some (Json.obj (insertKey kvs "memory_notes"
          (Json.obj [("Engineer", Json.str "note A"), ("Designer", Json.str "note B")]))))
        "Engineer" "note C"
      = Except.ok (some (Json.obj (insertKey kvs "memory_notes"
          (Json.obj [("Engineer", Json.str "note C"), ("Designer", Json.str "note B")]))))
    ∧ (∀ k, k ≠ "memory_notes" →
        lookupKey (insertKey kvs "memory_notes"
          (Json.obj [("Engineer", Json.str "note A"), ("Designer", Json.str "note B")])) k
        = lookupKey kvs k) := by
  have hmn0 : getKD kvs "memory_notes" (Json.obj []) = Json.obj [] := by
    rcases hmn with h | h <;> simp [getKD, h]
  refine ⟨?_, ?_, ?_, ?_, ?_⟩
  · exact record_single p kvs [] "Engineer" "note A" hfr hes hmn0
  · have h1 := record_single p
      (insertKey kvs "memory_notes" (Json.obj [("Engineer", Json.str "note A")]))
      [("Engineer", Json.str "note A")] "Designer" "note B"
      (by rw [frSentinelB_insert_notes]; exact hfr)
      (by rw [esSentinelB_insert_notes]; exact hes)
      (by simp [getKD, lookup_insert_self])
    rw [h1, insert_insert]
    rfl
  · exact lookup_insert_self kvs "memory_notes" _
  · have h1 := record_single p
      (insertKey kvs "memory_notes"
        (Json.obj [("Engineer", Json.str "note A"), ("Designer", Json.str "note B")]))
      [("Engineer", Json.str "note A"), ("Designer", Json.str "note B")] "Engineer" "note C"
      (by rw [frSentinelB_insert_notes]; exact hfr)
      (by rw [esSentinelB_insert_notes]; exact hes)
      (by simp [getKD, lookup_insert_self])
    rw [h1, insert_insert]
    rfl
  · intro k hk
    exact lookup_insert_ne kvs "memory_notes" _ k hk

/-- Witness for C5: the two-note scenario run on the concrete canonical
sample document. -/
theorem note_ledger_append_witness :
    record_adaptation_note "profile_structure.json" (some canonicalSampleDoc)
        "Engineer" "note A"
      = Except.ok (some (Json.obj (insertKey
          [("identity", Json.obj [("name", Json.str "Ana Dupont"), ("title", Json.str "Ingénieure")]),
           ("long_profile", Json.str "..."),
           ("experiences", Json.arr []),
           ("skills", Json.obj [("technical", Json.arr [Json.str "Python"]),
             ("methodological", Json.arr [])]),
           ("education", Json.str "..."),
           ("languages", Json.arr [Json.str "Français (natif)"]),
           ("interests", Json.arr []),
           ("memory_notes", Json.obj [])]
          "memory_notes" (Json.obj [("Engineer", Json.str "note A")])))) :=
  (note_ledger_append "profile_structure.json"
    [("identity", Json.obj [("name", Json.str "Ana Dupont"), ("title", Json.str "Ingénieure")]),
     ("long_profile", Json.str "..."),
     ("experiences", Json.arr []),
     ("skills", Json.obj [("technical", Json.arr [Json.str "Python"]),
       ("methodological", Json.arr [])]),
     ("education", Json.str "..."),
     ("languages", Json.arr [Json.str "Français (natif)"]),
     ("interests", Json.arr []),
     ("memory_notes", Json.obj [])]
    rfl rfl (Or.inr rfl)).1

/-! ## generate_resume.py — `ResumeGenerator` tailoring stages

The completion service (`LLMClient.generate`, which propagates transport and
status errors) is a parameter `svc : String → Except PyErr String`; the
stdlib codecs `json.dumps` / `json.loads` are parameters `jsonDumps` /
`jsonLoads` (`none` = `json.JSONDecodeError`). -/

/-- The locale `ResumeGenerator` tracks (`self.locale`), set by
`detect_language`. -/
inductive Lang where
  | en : Lang
  | fr : Lang
  | es : Lang

/-- `ResumeGenerator.detect_language` (generate_resume.py:42-50): naive word
hints on the lowercased text, Spanish checked first, default English.
(`String.toLower` lowercases ASCII; the hint words are already lowercase.) -/
def detect_language (text : String) : Lang :=
  let lowered := String.mk (text.data.map Char.toLower)
  if [" el ", " la ", " los ", " las ", "experiencia", "habilidades", "idiomas"].any
      (fun w => strContains lowered w) then Lang.es
  else if [" le ", " la ", " les ", "expérience", "compétences", "langues"].any
      (fun w => strContains lowered w) then Lang.fr
  else Lang.en

def headerText : Lang → String
  | Lang.en => "You are a resume writing expert."
  | Lang.fr => "Vous êtes un expert en rédaction de CV."
  | Lang.es => "Eres un experto en redacción de CV."

def sectionOfferText : Lang → String
  | Lang.en => "JOB OFFER:"
  | Lang.fr => "OFFRE D\x27EMPLOI:"
  | Lang.es => "OFERTA DE EMPLEO:"

def titleInstr : Lang → String
  | Lang.en => "Extract the job title from this offer. Return ONLY the title, nothing else."
  | Lang.fr => "Extrayez l\x27intitulé du poste de cette offre. Retournez UNIQUEMENT le titre, rien d\x27autre."
  | Lang.es => "Extrae el título del puesto de esta oferta. Devuelve SOLO el título, nada más."

/-- The prompt of `extract_job_title` (generate_resume.py:61-66), embedding
`offer[:1000]`. -/
def titlePrompt (lang : Lang) (offer : String) : String :=
  titleInstr lang ++ "\n\nOffer:\n" ++ String.mk (offer.data.take 1000) ++ "\n\nJob title:"

/-- Python f-string conversion of a value interpolated into a prompt: strings
interpolate as themselves, scalars as their Python `str()`; container `repr`s
are abbreviated (no property proved here inspects prompt text — the
completion service is always either universally quantified or constant). -/
def fstrOfJson : Json → String
  | Json.str s => s
  | Json.null => "None"
  | Json.bool true => "True"
  | Json.bool false => "False"
  | Json.num n => toString n
  | Json.arr _ => "<list>"
  | Json.obj _ => "<dict>"

def adaptInstr : Lang → String
  | Lang.en => "Write a 4-5 line profile paragraph highlighting the most relevant points for this offer. Use keywords from the offer. Be specific and impactful. Return ONLY the paragraph without any preface or comments."
  | Lang.fr => "Rédigez un paragraphe de 4-5 lignes mettant en avant les points les plus pertinents pour cette offre. Utilisez les mots-clés de l\x27offre. Soyez précis et percutant. Retournez UNIQUEMENT le paragraphe sans préface ni commentaires."
  | Lang.es => "Escribe un párrafo de 4-5 líneas destacando los puntos más relevantes para esta oferta. Usa palabras clave de la oferta. Sé específico e impactante. Devuelve SOLO el párrafo sin prefacio ni comentarios."

/-- The prompt of `adapt_profile` (generate_resume.py:90-98). -/
def adaptPrompt (lang : Lang) (offer lp : String) : String :=
  headerText lang ++ "\n\n" ++ sectionOfferText lang ++ "\n" ++ offer ++
  "\n\nFULL CANDIDATE PROFILE:\n" ++ lp ++ "\n\n" ++ adaptInstr lang

def experiencesInstrText : String :=
  "Select the 2-3 MOST relevant experiences and adapt missions to match the offer.\nFor each experience, keep 4-5 detailed missions showcasing requested competencies.\n\nIMPORTANT: Use REAL values from the JSON (real company names, cities, dates).\n\nReturn ONLY a valid JSON array of objects with this schema:\n[\n  \x7b\n    \"company\": \"Exact company name\",\n    \"location\": \"Exact city\",\n    \"role\": \"Exact role title\",\n    \"dates\": \"Real dates\",\n    \"missions\": [\"detailed mission 1\", \"detailed mission 2\", \"detailed mission 3\", \"detailed mission 4\"]\n  \x7d\n]\n"

/-- The prompt of `select_experiences` (generate_resume.py:114-137). -/
def experiencesPrompt (lang : Lang) (offer expsJson : String) : String :=
  headerText lang ++ "\n\n" ++ sectionOfferText lang ++ "\n" ++ offer ++
  "\n\nCANDIDATE EXPERIENCES (JSON):\n" ++ expsJson ++ "\n\n" ++ experiencesInstrText

def skillsInstrText : String :=
  "Select the relevant skills for this offer (8-10 per category). Prioritize skills mentioned in the offer.\nReturn ONLY this exact HTML-like format:\n<b>Technical:</b> skill1, skill2, skill3, skill4, skill5, skill6, skill7, skill8<br/>\n<b>Management & Methods:</b> skill1, skill2, skill3, skill4, skill5, skill6\n"

/-- The prompt of `select_skills` (generate_resume.py:165-177). -/
def skillsPrompt (lang : Lang) (offer skillsJson : String) : String :=
  headerText lang ++ "\n\n" ++ sectionOfferText lang ++ "\n" ++ offer ++
  "\n\nCANDIDATE SKILLS:\n" ++ skillsJson ++ "\n\n" ++ skillsInstrText

/-- The characters `re.sub(r'[<>:\"/\\|?*]', '', …)` removes. -/
def forbiddenChars : List Char := ['<', '>', ':', '\"', '/', '\\', '|', '?', '*']

/-- Python `str.strip()` (both-ends whitespace removal). -/
def pyStripL (cs : List Char) : List Char :=
  ((cs.dropWhile Char.isWhitespace).reverse.dropWhile Char.isWhitespace).reverse

/-- Python `str.strip()` on a string. -/
def pyStrip (s : String) : String :=
  String.mk (pyStripL s.data)

/-- Python `str.replace('\n', ' ')` (single-character pattern). -/
def pyReplaceNlSp (cs : List Char) : List Char :=
  cs.map (fun c => if c = '\n' then ' ' else c)

def removeForbiddenL (cs : List Char) : List Char :=
  cs.filter (fun c => !(forbiddenChars.contains c))

/-- The `re.sub` sanitization step. -/
def removeForbidden (s : String) : String :=
  String.mk (removeForbiddenL s.data)

/-- The response post-processing of `extract_job_title`
(generate_resume.py:69-74): strip, newline→space, drop forbidden characters,
truncate to 50, empty → `None`. -/
def clean_title (response : String) : Option String :=
  let t := removeForbiddenL (pyReplaceNlSp (pyStripL response.data))
  let t := t.take 50
  if t.isEmpty then none else some (String.mk t)

/-- `ResumeGenerator.extract_job_title` (generate_resume.py:52-74); also
returns the detected language it stores into `self.locale`. -/
def extract_job_title (svc : String → Except PyErr String) (offer : String) :
    Except PyErr (Option String × Lang) := do
  let lang := detect_language offer
  let response ← svc (titlePrompt lang offer)
  pure (clean_title response, lang)

/-- `ResumeGenerator.adapt_profile` (generate_resume.py:76-100): builds the
prompt from the offer and `self.profile['long_profile']` and returns the raw
completion — there is no `try`/`except` in this method. -/
def adapt_profile (svc : String → Except PyErr String) (lang : Lang)
    (profile : Json) (offer : String) : Except PyErr String := do
  let lp ← pyIndex profile "long_profile"
  svc (adaptPrompt lang offer (fstrOfJson lp))

/-- Python `str.find` (first index of a character, `-1` when absent). -/
def pyFindAux (c : Char) : List Char → Int → Int
  | [], _ => -1
  | x :: xs, i => if x = c then i else pyFindAux c xs (i + 1)

def pyFind (s : String) (c : Char) : Int :=
  pyFindAux c s.data 0

/-- Python `str.rfind` (last index of a character, `-1` when absent). -/
def pyRFindAux (c : Char) : List Char → Int → Int → Int
  | [], _, best => best
  | x :: xs, i, best => pyRFindAux c xs (i + 1) (if x = c then i else best)

def pyRFind (s : String) (c : Char) : Int :=
  pyRFindAux c s.data 0 (-1)

/-- Python `s[a:b]` for the in-range indices produced by `find`/`rfind`. -/
def pySliceII (s : String) (a b : Int) : String :=
  String.mk ((s.data.drop a.toNat).take (b - a).toNat)

/-- The tolerant-array-recovery block of `select_experiences`
(generate_resume.py:141-148): substring from the first `[` to the last `]`
when both exist in order, else the whole response, fed to `json.loads`
(`none` = `json.JSONDecodeError`). -/
def parse_experiences (jsonLoads : String → Option Json) (response : String) :
    Option Json :=
  let start := pyFind response '['
  let stop := pyRFind response ']' + 1
  if start ≠ -1 ∧ stop > start then jsonLoads (pySliceII response start stop)
  else jsonLoads response

/-- `ResumeGenerator.select_experiences` (generate_resume.py:102-151). The
completion call sits OUTSIDE the `try`, which catches only
`json.JSONDecodeError`; that parse failure falls back to
`self.profile['experiences'][:2]`. -/
def select_experiences (svc : String → Except PyErr String)
    (jsonDumps : Json → String) (jsonLoads : String → Option Json)
    (lang : Lang) (profile : Json) (offer : String) : Except PyErr Json := do
  let exps ← pyIndex profile "experiences"
  let response ← svc (experiencesPrompt lang offer (jsonDumps exps))
  match parse_experiences jsonLoads response with
  | some j => pure j
  | none => do
      let e ← pyIndex profile "experiences"
      pySlice2 e

/-- `ResumeGenerator.select_skills` (generate_resume.py:153-179): returns the
raw completion — there is no `try`/`except` in this method. -/
def select_skills (svc : String → Except PyErr String) (jsonDumps : Json → String)
    (lang : Lang) (profile : Json) (offer : String) : Except PyErr String := do
  let skills ← pyIndex profile "skills"
  svc (skillsPrompt lang offer (jsonDumps skills))

/-- The `else` branch of `generate_filename` (generate_resume.py:185-188):
`Resume_{name with spaces→underscores}_{date}`; `datetime.now().strftime`
is the `today` parameter. `.replace` on a non-string name raises
`AttributeError`. -/
def defaultResumeName (profile : Json) (today : String) : Except PyErr String := do
  let ident ← pyIndex profile "identity"
  let nm ← pyIndex ident "name"
  match nm with
  | Json.str s =>
      pure ("Resume_" ++ String.mk (s.data.map (fun c => if c = ' ' then '_' else c))
        ++ "_" ++ today)
  | _ => Except.error (PyErr.attributeError "replace")

/-- The `if job_title:` dispatch of `generate_filename`: Python truthiness
makes both `None` and the empty string take the default branch. -/
def pickResumeName (profile : Json) (today : String) : Option String → Except PyErr String
  | some t => if t = "" then defaultResumeName profile today
              else Except.ok ("Resume_" ++ t)
  | none => defaultResumeName profile today

/-- `ResumeGenerator.generate_filename` (generate_resume.py:181-191): the
chosen name is sanitized by `re.sub` and suffixed `.pdf`. -/
def generate_filename (profile : Json) (today : String) (job_title : Option String) :
    Except PyErr String := do
  let name ← pickResumeName profile today job_title
  pure (removeForbidden name ++ ".pdf")

/-! ## pdf_text_extractor.py

Each strategy helper wraps its whole body in `try: … except Exception:
return ""`, the library import included. The underlying library interaction
is a parameter: its `Except.error` side is any exception it raises (a missing
or unreadable file included), and `importOk = false` is an import failure. -/

/-- `_try_pypdf2` (pdf_text_extractor.py:5-19): `readRes` carries one
`page.extract_text()` result per page (`none` when a page has no text
layer, mapped by `or \"\"` to the empty string); page texts are concatenated
with newlines and stripped. Every exception yields `""`. -/
def _try_pypdf2 (importOk : Bool) (readRes : Except PyErr (List (Option String))) :
    String :=
  if importOk = false then ""
  else match readRes with
    | Except.error _ => ""
    | Except.ok pages => pyStrip (String.join (pages.map (fun p => p.getD "" ++ "\n")))

/-- `_try_pdfminer` (pdf_text_extractor.py:22-31): `extract_text(path) or ""`,
stripped; every exception yields `""`. -/
def _try_pdfminer (importOk : Bool) (res : Except PyErr (Option String)) : String :=
  if importOk = false then ""
  else match res with
    | Except.error _ => ""
    | Except.ok t => pyStrip (t.getD "")

/-- `_try_ocr` (pdf_text_extractor.py:34-47): per-page OCR texts joined with
newlines and stripped; every exception yields `""`. -/
def _try_ocr (importOk : Bool) (convertRes : Except PyErr (List String)) : String :=
  if importOk = false then ""
  else match convertRes with
    | Except.error _ => ""
    | Except.ok texts => pyStrip (String.intercalate "\n" texts)

/-- `extract_pdf_text_any` (pdf_text_extractor.py:50-65): first non-empty
strategy result in order PyPDF2, pdfminer, OCR. Stated in `Except` to make
"never raises" a theorem rather than a typing convention. -/
def extract_pdf_text_any (i1 : Bool) (r1 : Except PyErr (List (Option String)))
    (i2 : Bool) (r2 : Except PyErr (Option String))
    (i3 : Bool) (r3 : Except PyErr (List String)) : Except PyErr String := do
  let text := _try_pypdf2 i1 r1
  if text ≠ "" then pure text
  else
    let text := _try_pdfminer i2 r2
    if text ≠ "" then pure text
    else pure (_try_ocr i3 r3)

/-! ### C1 — tailoring-stage failure behaviour -/

/-- The spec's completion-service stub that raises on every call. -/
def svcAlwaysRaises : String → Except PyErr String :=
  fun _ => Except.error (PyErr.exc "completion service unavailable")

def jsonDumpsStub : Json → String := fun _ => "<json>"

def jsonLoadsNever : String → Option Json := fun _ => none

/-- A small concrete canonical profile for exercising the tailoring stages. -/
def tailoringProfile : Json := Json.obj [
  ("identity", Json.obj [("name", Json.str "Ana Dupont"), ("title", Json.str "Engineer")]),
  ("long_profile", Json.str "Seasoned engineer."),
  ("experiences", Json.arr [
    Json.obj [("company", Json.str "Acme")],
    Json.obj [("company", Json.str "Globex")],
    Json.obj [("company", Json.str "Initech")]]),
  ("skills", Json.obj [("technical", Json.arr [Json.str "Python"]),
    ("methodological", Json.arr [])])]

/-- C1 counterexample: with the always-raising completion stub, every
tailoring stage of `generate_resume.py` propagates the exception —
`adapt_profile` does not return `profile.long_profile`, `select_experiences`
does not return the first 2 experiences, and `select_skills` does not return
the profile's skills: no stage catches the service exception. -/
theorem tailoring_fallback_counterexample :
    adapt_profile svcAlwaysRaises Lang.en tailoringProfile "an offer"
      = Except.error (PyErr.exc "completion service unavailable")
    ∧ adapt_profile svcAlwaysRaises Lang.en tailoringProfile "an offer"
      ≠ Except.ok "Seasoned engineer."
    ∧ select_experiences svcAlwaysRaises jsonDumpsStub jsonLoadsNever
        Lang.en tailoringProfile "an offer"
      = Except.error (PyErr.exc "completion service unavailable")
    ∧ select_experiences svcAlwaysRaises jsonDumpsStub jsonLoadsNever
        Lang.en tailoringProfile "an offer"
      ≠ Except.ok (Json.arr [Json.obj [("company", Json.str "Acme")],
          Json.obj [("company", Json.str "Globex")]])
    ∧ select_skills svcAlwaysRaises jsonDumpsStub Lang.en tailoringProfile "an offer"
      = Except.error (PyErr.exc "completion service unavailable") :=
  ⟨rfl, fun h => Except.noConfusion h, rfl, fun h => Except.noConfusion h, rfl⟩

/-- C1 (amended). When the completion service raises, the exception escapes
each of `adapt_profile`, `select_experiences` and `select_skills` unchanged —
no stage applies a fallback to a service exception. The only deterministic
fallback is in `select_experiences`, and only for a service response that
fails JSON parsing: then exactly the first 2 entries of
`profile['experiences']` are returned. -/
theorem tailoring_stage_failures :
    (∀ e lang profile offer lp, pyIndex profile "long_profile" = Except.ok lp →
      adapt_profile (fun _ => Except.error e) lang profile offer = Except.error e)
    ∧ (∀ e dumps loads lang profile offer ex,
      pyIndex profile "experiences" = Except.ok ex →
      select_experiences (fun _ => Except.error e) dumps loads lang profile offer
        = Except.error e)
    ∧ (∀ e dumps lang profile offer sk, pyIndex profile "skills" = Except.ok sk →
      select_skills (fun _ => Except.error e) dumps lang profile offer = Except.error e)
    ∧ (∀ svc dumps loads lang profile offer resp xs,
      pyIndex profile "experiences" = Except.ok (Json.arr xs) →
      svc (experiencesPrompt lang offer (dumps (Json.arr xs))) = Except.ok resp →
      parse_experiences loads resp = none →
      select_experiences svc dumps loads lang profile offer
        = Except.ok (Json.arr (xs.take 2))) := by
  refine ⟨?_, ?_, ?_, ?_⟩
  · intro e lang profile offer lp h
    simp [adapt_profile, h, bind, Except.bind]
  · intro e dumps loads lang profile offer ex h
    simp [select_experiences, h, bind, Except.bind]
  · intro e dumps lang profile offer sk h
    simp [select_skills, h, bind, Except.bind]
  · intro svc dumps loads lang profile offer resp xs h1 h2 h3
    simp [select_experiences, h1, h2, h3, pySlice2, bind, Except.bind, pure, Except.pure]

/-- Witness for C1 (amended): the exception-propagation conjunct at the
always-raising stub, and the parse-failure fallback conjunct at a service
returning unparseable text. -/
theorem tailoring_stage_failures_witness :
    adapt_profile (fun _ => Except.error (PyErr.exc "down")) Lang.en
        tailoringProfile "an offer"
      = Except.error (PyErr.exc "down")
    ∧ select_experiences (fun _ => Except.ok "no json here") jsonDumpsStub
        jsonLoadsNever Lang.en tailoringProfile "an offer"
      = Except.ok (Json.arr [Json.obj [("company", Json.str "Acme")],
          Json.obj [("company", Json.str "Globex")]]) :=
  ⟨tailoring_stage_failures.1 (PyErr.exc "down") Lang.en tailoringProfile "an offer"
      (Json.str "Seasoned engineer.") rfl,
   tailoring_stage_failures.2.2.2 (fun _ => Except.ok "no json here") jsonDumpsStub
      jsonLoadsNever Lang.en tailoringProfile "an offer" "no json here"
      [Json.obj [("company", Json.str "Acme")],
       Json.obj [("company", Json.str "Globex")],
       Json.obj [("company", Json.str "Initech")]] rfl rfl rfl⟩

/-! ### C3 — PDF text extraction -/

/-- C3 (amended). `extract_pdf_text_any` returns the first non-empty result
among the strategies in order (PyPDF2 text layer, pdfminer, OCR), or the
empty string when all fail — and it never raises: every strategy catches all
exceptions, a missing/unreadable file included. -/
theorem extract_pdf_first_nonempty (i1 : Bool) (r1 : Except PyErr (List (Option String)))
    (i2 : Bool) (r2 : Except PyErr (Option String))
    (i3 : Bool) (r3 : Except PyErr (List String)) :
    extract_pdf_text_any i1 r1 i2 r2 i3 r3
      = Except.ok (if _try_pypdf2 i1 r1 ≠ "" then _try_pypdf2 i1 r1
          else if _try_pdfminer i2 r2 ≠ "" then _try_pdfminer i2 r2
          else _try_ocr i3 r3)
    ∧ isOkB (extract_pdf_text_any i1 r1 i2 r2 i3 r3) = true := by
  unfold extract_pdf_text_any
  by_cases h1 : _try_pypdf2 i1 r1 = "" <;> by_cases h2 : _try_pdfminer i2 r2 = "" <;>
    simp [h1, h2, isOkB, pure, Except.pure]

/-- C3 counterexample: when the backing file is missing — every underlying
library call raising `FileNotFoundError` — `extract_pdf_text_any` returns
`Except.ok ""` rather than raising, contradicting the claim that it raises
for a missing/unreadable file. -/
theorem extract_pdf_missing_file_counterexample :
    extract_pdf_text_any true (Except.error (PyErr.fileNotFound "missing.pdf"))
        true (Except.error (PyErr.fileNotFound "missing.pdf"))
        true (Except.error (PyErr.fileNotFound "missing.pdf"))
      = Except.ok ""
    ∧ isOkB (extract_pdf_text_any true (Except.error (PyErr.fileNotFound "missing.pdf"))
        true (Except.error (PyErr.fileNotFound "missing.pdf"))
        true (Except.error (PyErr.fileNotFound "missing.pdf"))) = true :=
  ⟨rfl, rfl⟩

/-! ### C10 — filename sanitization -/

/-- The claim's property of an extracted job title: `None`, or at most 50
characters with no filesystem-forbidden character and no newline. -/
def titleOkB : Option String → Bool
  | none => true
  | some t => decide (t.length ≤ 50) &&
      t.data.all (fun c => !(forbiddenChars.contains c) && !(c = '\n'))

/-- The claim's property of a generated filename: ends in `.pdf` and contains
no filesystem-forbidden character. -/
def filenameOkB (fn : String) : Bool :=
  decide (fn.data.reverse.take 4 = ['f', 'd', 'p', '.']) &&
  fn.data.all (fun c => !(forbiddenChars.contains c))

theorem clean_title_ok (resp : String) : titleOkB (clean_title resp) = true := by
  unfold clean_title
  by_cases h : ((removeForbiddenL (pyReplaceNlSp (pyStripL resp.data))).take 50).isEmpty
  · rw [if_pos h]
    rfl
  · rw [if_neg h]
    show (decide ((String.mk ((removeForbiddenL (pyReplaceNlSp (pyStripL resp.data))).take 50)).length ≤ 50) &&
      ((removeForbiddenL (pyReplaceNlSp (pyStripL resp.data))).take 50).all
        (fun c => !(forbiddenChars.contains c) && !(c = '\n'))) = true
    rw [Bool.and_eq_true]
    constructor
    · rw [decide_eq_true_eq]
      show ((removeForbiddenL (pyReplaceNlSp (pyStripL resp.data))).take 50).length ≤ 50
      exact List.length_take_le 50 _
    · rw [List.all_eq_true]
      intro c hc
      have hct : c ∈ removeForbiddenL (pyReplaceNlSp (pyStripL resp.data)) :=
        List.take_subset _ _ hc
      rw [removeForbiddenL, List.mem_filter] at hct
      obtain ⟨hmem, hforb⟩ := hct
      rw [pyReplaceNlSp, List.mem_map] at hmem
      obtain ⟨x, _hxmem, hx⟩ := hmem
      have hnl : ¬ (c = '\n') := by
        by_cases hxn : x = '\n'
        · rw [if_pos hxn] at hx
          rw [← hx]
          decide
        · rw [if_neg hxn] at hx
          rw [← hx]
          exact hxn
      rw [Bool.and_eq_true]
      exact ⟨hforb, by rw [decide_eq_false hnl]; rfl⟩

theorem filename_append_ok (name : String) :
    filenameOkB (removeForbidden name ++ ".pdf") = true := by
  have hdata : (removeForbidden name ++ ".pdf").data
      = removeForbiddenL name.data ++ ['.', 'p', 'd', 'f'] := by
    simp [removeForbidden, String.data_append]
  unfold filenameOkB
  rw [hdata]
  have h1 : (removeForbiddenL name.data ++ ['.', 'p', 'd', 'f']).reverse.take 4
      = ['f', 'd', 'p', '.'] := by
    rw [List.reverse_append]
    rfl
  have h2 : (removeForbiddenL name.data).all (fun c => !(forbiddenChars.contains c)) = true := by
    rw [List.all_eq_true]
    intro c hc
    rw [removeForbiddenL, List.mem_filter] at hc
    exact hc.2
  rw [Bool.and_eq_true, List.all_append, Bool.and_eq_true]
  exact ⟨by rw [decide_eq_true_eq]; exact h1, h2, rfl⟩

/-- C10. Implicit filename sanitization: `extract_job_title` yields `None` or
a title of at most 50 characters with none of `< > : " / \ | ? *` and no
newline; `generate_filename` (for every `job_title` argument, `None`
included) yields a name ending in `.pdf` with none of those characters. -/
theorem sanitization_invariants :
    (∀ svc offer res lang, extract_job_title svc offer = Except.ok (res, lang) →
      titleOkB res = true)
    ∧ (∀ profile today job_title fn,
      generate_filename profile today job_title = Except.ok fn →
      filenameOkB fn = true) := by
  constructor
  · intro svc offer res lang h
    unfold extract_job_title at h
    obtain ⟨resp, _hsvc, h⟩ := except_bind_ok h
    simp only [pure, Except.pure, Except.ok.injEq, Prod.mk.injEq] at h
    obtain ⟨h1, _h2⟩ := h
    rw [← h1]
    exact clean_title_ok resp
  · intro profile today job_title fn h
    unfold generate_filename at h
    obtain ⟨name, _hname, h⟩ := except_bind_ok h
    simp only [pure, Except.pure, Except.ok.injEq] at h
    rw [← h]
    exact filename_append_ok name

/-- Witness for C10 at a concrete service response and a concrete job title. -/
theorem sanitization_invariants_witness :
    titleOkB (some "DevOps Engineer") = true
    ∧ filenameOkB "Resume_DevOps.pdf" = true :=
  ⟨sanitization_invariants.1 (fun _ => Except.ok "DevOps Engineer") "an offer"
      (some "DevOps Engineer") Lang.en rfl,
   sanitization_invariants.2 tailoringProfile "20260101" (some "DevOps")
      "Resume_DevOps.pdf" rfl⟩
